import Mathlib

/-!
# Bus-operation dispatch layer (`multibus.c`) and the pause-QID command word

A shallow embedding of
`qca-wifi-10.4/cmn_dev/hif/src/dispatcher/multibus.c` and of the field
descriptors of `fwcommon/include/IPQ4019/hw/command/pause_qid_cmd.h`.

Conventions of the embedding:

* a C function pointer is an address (`FnPtr`); a slot of the operation
  table is `Option FnPtr`, `none` being the C null pointer;
* `struct hif_softc *hif_sc` is represented by the value of the device
  context it points to, passed and returned explicitly;
* functions that live outside `multibus.c` (the four backend
  table-initializers, the code behind a function pointer, the two dummy
  statistics functions) are the fields of `Env`;
* calling through a null slot is undefined in C: the model returns `none`;
* every call that leaves `multibus.c`, and the call of the verifier, is
  recorded as an `Event`, in program order;
* of the `HIF_ERROR` log lines only the verifier's are kept: the indices
  of the null slots it reports.
-/

namespace Multibus

/-- The address of a C function. -/
abbrev FnPtr := Nat

/-- Modelled from the spec: the enumeration `QDF_STATUS`, whose declaration
is missing from the sources at hand. A status is success or one of several
failures (spec 7); the three enumerators that `multibus.c` names are kept
apart, every other enumerator is `QDF_STATUS_E_OTHER code`. -/
inductive QDF_STATUS where
  | QDF_STATUS_SUCCESS
  | QDF_STATUS_E_INVAL
  | QDF_STATUS_E_NOSUPPORT
  | QDF_STATUS_E_OTHER (code : Nat)
  deriving DecidableEq, Repr

/-- Modelled from the spec: the enumeration `enum qdf_bus_type`, whose
declaration is missing from the sources at hand. The four interconnect
kinds (spec 3), which are the enumerators that the `switch` statements of
`multibus.c` name, are kept apart; every other value is
`QDF_BUS_TYPE_OTHER v`. -/
inductive qdf_bus_type where
  | QDF_BUS_TYPE_PCI
  | QDF_BUS_TYPE_SNOC
  | QDF_BUS_TYPE_AHB
  | QDF_BUS_TYPE_SDIO
  | QDF_BUS_TYPE_OTHER (v : Nat)
  deriving DecidableEq, Repr

open QDF_STATUS qdf_bus_type

/-- Modelled from the spec: the operation table `struct hif_bus_ops`, whose
declaration (`multibus.h`) is missing from the sources at hand. A record of
function-pointer slots and nothing else (spec 4.3), one slot per facade
entry point (spec 4.4): the slots are the members that `multibus.c`
dereferences. -/
structure hif_bus_ops where
  hif_bus_open : Option FnPtr
  hif_bus_close : Option FnPtr
  hif_bus_prevent_linkdown : Option FnPtr
  hif_reset_soc : Option FnPtr
  hif_bus_suspend : Option FnPtr
  hif_bus_resume : Option FnPtr
  hif_target_sleep_state_adjust : Option FnPtr
  hif_disable_isr : Option FnPtr
  hif_nointrs : Option FnPtr
  hif_enable_bus : Option FnPtr
  hif_disable_bus : Option FnPtr
  hif_bus_configure : Option FnPtr
  hif_get_config_item : Option FnPtr
  hif_set_mailbox_swap : Option FnPtr
  hif_claim_device : Option FnPtr
  hif_shutdown_device : Option FnPtr
  hif_stop : Option FnPtr
  hif_cancel_deferred_target_sleep : Option FnPtr
  hif_irq_disable : Option FnPtr
  hif_irq_enable : Option FnPtr
  hif_dump_registers : Option FnPtr
  hif_dump_target_memory : Option FnPtr
  hif_ipa_get_ce_resource : Option FnPtr
  hif_mask_interrupt_call : Option FnPtr
  hif_enable_power_management : Option FnPtr
  hif_disable_power_management : Option FnPtr
  hif_display_stats : Option FnPtr
  hif_clear_stats : Option FnPtr
  deriving DecidableEq, Repr

/-- Modelled from the spec: the device context `struct hif_softc`, whose
declaration (`hif_main.h`) is missing from the sources at hand. It owns one
operation table (spec 3); the remaining members, which `multibus.c` never
reads, are one uninterpreted value. -/
structure hif_softc where
  bus_ops : hif_bus_ops
  other : Nat
  deriving DecidableEq, Repr

/-- The names of the slots, used to tag a call through the table. -/
inductive Slot where
  | hif_bus_open
  | hif_bus_close
  | hif_bus_prevent_linkdown
  | hif_reset_soc
  | hif_bus_suspend
  | hif_bus_resume
  | hif_target_sleep_state_adjust
  | hif_disable_isr
  | hif_nointrs
  | hif_enable_bus
  | hif_disable_bus
  | hif_bus_configure
  | hif_get_config_item
  | hif_set_mailbox_swap
  | hif_claim_device
  | hif_shutdown_device
  | hif_stop
  | hif_cancel_deferred_target_sleep
  | hif_irq_disable
  | hif_irq_enable
  | hif_dump_registers
  | hif_dump_target_memory
  | hif_ipa_get_ce_resource
  | hif_mask_interrupt_call
  | hif_enable_power_management
  | hif_disable_power_management
  | hif_display_stats
  | hif_clear_stats
  deriving DecidableEq, Repr

/-- An actual argument of a call through the table, after the device
context. -/
inductive Arg where
  | bus (bus_type : qdf_bus_type)
  | bool (b : Bool)
  | int (i : Int)
  | u32 (n : Nat)
  | ptr (address : Nat)
  deriving DecidableEq, Repr

/-- The calls that `multibus.c` makes, as they are observed from outside. -/
inductive Event where
  /-- The backend table-initializer of the given bus was called:
  `hif_initialize_pci_ops`, `hif_initialize_snoc_ops`,
  `hif_initialize_ahb_ops` or `hif_initialize_sdio_ops`. -/
  | backend_init (bus_type : qdf_bus_type)
  /-- The verifier `hif_verify_basic_ops` was called. -/
  | verify_basic_ops
  /-- The function at address `fn`, read from slot `slot`, was called with
  the device context `hif_sc` and then `args`, in this order. -/
  | slot_call (slot : Slot) (fn : FnPtr) (hif_sc : hif_softc) (args : List Arg)
  deriving DecidableEq, Repr

/-- Everything `multibus.c` links against: the addresses of the two dummy
statistics functions (`dummy.h`), the four backend table-initializers, and
what the code at a function address does when it is called with a given
signature. -/
structure Env where
  hif_dummy_display_stats : FnPtr
  hif_dummy_clear_stats : FnPtr
  hif_initialize_pci_ops : hif_softc → QDF_STATUS × hif_softc
  hif_initialize_snoc_ops : hif_bus_ops → QDF_STATUS × hif_bus_ops
  hif_initialize_ahb_ops : hif_bus_ops → QDF_STATUS × hif_bus_ops
  hif_initialize_sdio_ops : hif_softc → QDF_STATUS × hif_softc
  /-- Code of type `QDF_STATUS (*)(struct hif_softc *, enum qdf_bus_type)`. -/
  call_bus_open : FnPtr → hif_softc → qdf_bus_type → QDF_STATUS × hif_softc
  /-- Code of type `int (*)(struct hif_softc *)`. -/
  call_int : FnPtr → hif_softc → Int × hif_softc
  /-- Code of type `int (*)(struct hif_softc *, bool, bool)`. -/
  call_sleep_state_adjust : FnPtr → hif_softc → Bool → Bool → Int × hif_softc
  /-- Code of type `QDF_STATUS (*)(struct hif_softc *, struct device *,
  void *, const hif_bus_id *, enum hif_enable_type)`. -/
  call_enable_bus : FnPtr → hif_softc → Nat → Nat → Nat → Int → QDF_STATUS × hif_softc
  /-- Code of type `QDF_STATUS (*)(struct hif_softc *, int, void *, uint32_t)`. -/
  call_get_config_item : FnPtr → hif_softc → Int → Nat → Nat → QDF_STATUS × hif_softc

/-- Modelled from the spec: the macro `HIF_GET_SOFTC` (`hif_main.h`, missing
from the sources at hand). Resolving the device context from the opaque
handle `struct hif_opaque_softc *` is a pure lookup (spec 4.4): the handle
is the device context itself. -/
def HIF_GET_SOFTC (hif_ctx : hif_softc) : hif_softc := hif_ctx

/-- Function `hif_intialize_default_ops`, lines 46-58. -/
def hif_intialize_default_ops (env : Env) (hif_sc : hif_softc) : hif_softc :=
  let bus_ops := hif_sc.bus_ops
  -- must be filled in by hif_bus_open
  let bus_ops := { bus_ops with hif_bus_close := none }
  -- dummy implementations
  let bus_ops := { bus_ops with hif_display_stats := some env.hif_dummy_display_stats }
  let bus_ops := { bus_ops with hif_clear_stats := some env.hif_dummy_clear_stats }
  { hif_sc with bus_ops := bus_ops }

/-- Macro `NUM_OPS`, line 60: `sizeof(struct hif_bus_ops) / sizeof(void *)`. -/
def NUM_OPS : Nat := 28

/-- The cast `void **ops_array = (void *)bus_ops`, line 74: the table read
as an array of pointers, member by member. -/
def ops_array (bus_ops : hif_bus_ops) : List (Option FnPtr) :=
  [ bus_ops.hif_bus_open, bus_ops.hif_bus_close, bus_ops.hif_bus_prevent_linkdown,
    bus_ops.hif_reset_soc, bus_ops.hif_bus_suspend, bus_ops.hif_bus_resume,
    bus_ops.hif_target_sleep_state_adjust, bus_ops.hif_disable_isr, bus_ops.hif_nointrs,
    bus_ops.hif_enable_bus, bus_ops.hif_disable_bus, bus_ops.hif_bus_configure,
    bus_ops.hif_get_config_item, bus_ops.hif_set_mailbox_swap, bus_ops.hif_claim_device,
    bus_ops.hif_shutdown_device, bus_ops.hif_stop, bus_ops.hif_cancel_deferred_target_sleep,
    bus_ops.hif_irq_disable, bus_ops.hif_irq_enable, bus_ops.hif_dump_registers,
    bus_ops.hif_dump_target_memory, bus_ops.hif_ipa_get_ce_resource,
    bus_ops.hif_mask_interrupt_call, bus_ops.hif_enable_power_management,
    bus_ops.hif_disable_power_management, bus_ops.hif_display_stats,
    bus_ops.hif_clear_stats ]

/-- The body of the loop of `hif_verify_basic_ops`, lines 79-82, at index
`i`: the loop state is `status` and the indices reported by `HIF_ERROR`. -/
def verify_step (ops : List (Option FnPtr)) (acc : QDF_STATUS × List Nat) (i : Nat) :
    QDF_STATUS × List Nat :=
  if ops[i]? = some none then (QDF_STATUS_E_NOSUPPORT, acc.2 ++ [i]) else acc

/-- Function `hif_verify_basic_ops`, lines 71-85. Returns the status, the device
context as the function leaves it, and the slot indices it reported. -/
def hif_verify_basic_ops (hif_sc : hif_softc) : QDF_STATUS × hif_softc × List Nat :=
  let bus_ops := hif_sc.bus_ops
  let r := (List.range NUM_OPS).foldl (verify_step (ops_array bus_ops)) (QDF_STATUS_SUCCESS, [])
  (r.1, hif_sc, r.2)

/-- The `switch` of `hif_bus_open`, lines 122-138: the status, the device
context and the calls made. Every branch assigns `status`, so its initial
value `QDF_STATUS_E_INVAL` (line 118) is never returned. -/
def hif_bus_open_switch (env : Env) (hif_sc : hif_softc) (bus_type : qdf_bus_type) :
    QDF_STATUS × hif_softc × List Event :=
  match bus_type with
  | QDF_BUS_TYPE_PCI =>
    let r := env.hif_initialize_pci_ops hif_sc
    (r.1, r.2, [Event.backend_init QDF_BUS_TYPE_PCI])
  | QDF_BUS_TYPE_SNOC =>
    let r := env.hif_initialize_snoc_ops hif_sc.bus_ops
    (r.1, { hif_sc with bus_ops := r.2 }, [Event.backend_init QDF_BUS_TYPE_SNOC])
  | QDF_BUS_TYPE_AHB =>
    let r := env.hif_initialize_ahb_ops hif_sc.bus_ops
    (r.1, { hif_sc with bus_ops := r.2 }, [Event.backend_init QDF_BUS_TYPE_AHB])
  | QDF_BUS_TYPE_SDIO =>
    let r := env.hif_initialize_sdio_ops hif_sc
    (r.1, r.2, [Event.backend_init QDF_BUS_TYPE_SDIO])
  | QDF_BUS_TYPE_OTHER _ =>
    (QDF_STATUS_E_NOSUPPORT, hif_sc, [])

/-- Function `hif_bus_open`, lines 115-150. Returns the status, the device context
afterwards and the calls made, or `none` when a null slot is called. -/
def hif_bus_open (env : Env) (hif_sc : hif_softc) (bus_type : qdf_bus_type) :
    Option (QDF_STATUS × hif_softc × List Event) :=
  let hif_sc := hif_intialize_default_ops env hif_sc
  let sw := hif_bus_open_switch env hif_sc bus_type
  let status := sw.1
  let hif_sc := sw.2.1
  let trace := sw.2.2
  if status ≠ QDF_STATUS_SUCCESS then
    some (status, hif_sc, trace)
  else
    let v := hif_verify_basic_ops hif_sc
    let status := v.1
    let hif_sc := v.2.1
    let trace := trace ++ [Event.verify_basic_ops]
    if status ≠ QDF_STATUS_SUCCESS then
      some (status, hif_sc, trace)
    else
      match hif_sc.bus_ops.hif_bus_open with
      | none => none
      | some fn =>
        let r := env.call_bus_open fn hif_sc bus_type
        some (r.1, r.2, trace ++ [Event.slot_call Slot.hif_bus_open fn hif_sc [Arg.bus bus_type]])

/-- Function `hif_bus_suspend`, lines 180-184. -/
def hif_bus_suspend (env : Env) (hif_ctx : hif_softc) : Option (Int × hif_softc × List Event) :=
  let hif_sc := HIF_GET_SOFTC hif_ctx
  match hif_sc.bus_ops.hif_bus_suspend with
  | none => none
  | some fn =>
    let r := env.call_int fn hif_sc
    some (r.1, r.2, [Event.slot_call Slot.hif_bus_suspend fn hif_sc []])

/-- Function `hif_bus_resume`, lines 186-190. -/
def hif_bus_resume (env : Env) (hif_ctx : hif_softc) : Option (Int × hif_softc × List Event) :=
  let hif_sc := HIF_GET_SOFTC hif_ctx
  match hif_sc.bus_ops.hif_bus_resume with
  | none => none
  | some fn =>
    let r := env.call_int fn hif_sc
    some (r.1, r.2, [Event.slot_call Slot.hif_bus_resume fn hif_sc []])

/-- Function `hif_target_sleep_state_adjust`, lines 192-197. -/
def hif_target_sleep_state_adjust (env : Env) (hif_sc : hif_softc) (sleep_ok wait_for_it : Bool) :
    Option (Int × hif_softc × List Event) :=
  match hif_sc.bus_ops.hif_target_sleep_state_adjust with
  | none => none
  | some fn =>
    let r := env.call_sleep_state_adjust fn hif_sc sleep_ok wait_for_it
    some (r.1, r.2, [Event.slot_call Slot.hif_target_sleep_state_adjust fn hif_sc
      [Arg.bool sleep_ok, Arg.bool wait_for_it]])

/-- Function `hif_enable_bus`, lines 210-215. The pointers `dev`, `bdev` and
`bid` are addresses, `type` is the value of `enum hif_enable_type`. -/
def hif_enable_bus (env : Env) (hif_sc : hif_softc) (dev bdev bid : Nat) (type : Int) :
    Option (QDF_STATUS × hif_softc × List Event) :=
  match hif_sc.bus_ops.hif_enable_bus with
  | none => none
  | some fn =>
    let r := env.call_enable_bus fn hif_sc dev bdev bid type
    some (r.1, r.2, [Event.slot_call Slot.hif_enable_bus fn hif_sc
      [Arg.ptr dev, Arg.ptr bdev, Arg.ptr bid, Arg.int type]])

/-- Function `hif_bus_configure`, lines 222-225. -/
def hif_bus_configure (env : Env) (hif_sc : hif_softc) : Option (Int × hif_softc × List Event) :=
  match hif_sc.bus_ops.hif_bus_configure with
  | none => none
  | some fn =>
    let r := env.call_int fn hif_sc
    some (r.1, r.2, [Event.slot_call Slot.hif_bus_configure fn hif_sc []])

/-- Function `hif_get_config_item`, lines 227-233. The pointer `config` is
an address, `config_len` a `uint32_t`. -/
def hif_get_config_item (env : Env) (hif_ctx : hif_softc) (opcode : Int) (config : Nat)
    (config_len : Nat) : Option (QDF_STATUS × hif_softc × List Event) :=
  let hif_sc := HIF_GET_SOFTC hif_ctx
  match hif_sc.bus_ops.hif_get_config_item with
  | none => none
  | some fn =>
    let r := env.call_get_config_item fn hif_sc opcode config config_len
    some (r.1, r.2, [Event.slot_call Slot.hif_get_config_item fn hif_sc
      [Arg.int opcode, Arg.ptr config, Arg.u32 config_len]])

/-- Function `hif_dump_registers`, lines 274-278. -/
def hif_dump_registers (env : Env) (hif_hdl : hif_softc) : Option (Int × hif_softc × List Event) :=
  let hif_sc := HIF_GET_SOFTC hif_hdl
  match hif_sc.bus_ops.hif_dump_registers with
  | none => none
  | some fn =>
    let r := env.call_int fn hif_sc
    some (r.1, r.2, [Event.slot_call Slot.hif_dump_registers fn hif_sc []])

/-! ## The pause-QID command word, dword 0 (`pause_qid_cmd.h`, lines 89-132) -/

def PAUSE_QID_CMD_0_CMD_ID_LSB : Nat := 0
def PAUSE_QID_CMD_0_CMD_ID_MASK : Nat := 0x0000000f
def PAUSE_QID_CMD_0_RESERVED_0A_LSB : Nat := 4
def PAUSE_QID_CMD_0_RESERVED_0A_MASK : Nat := 0x000000f0
def PAUSE_QID_CMD_0_SW_CMD_REF_LSB : Nat := 8
def PAUSE_QID_CMD_0_SW_CMD_REF_MASK : Nat := 0x0000ff00
def PAUSE_QID_CMD_0_QID_LSB : Nat := 16
def PAUSE_QID_CMD_0_QID_MASK : Nat := 0x3fff0000
def PAUSE_QID_CMD_0_RESERVED_0B_LSB : Nat := 30
def PAUSE_QID_CMD_0_RESERVED_0B_MASK : Nat := 0xc0000000

/-- The left shift of C on `uint32_t`: the result is reduced modulo `2^32`. -/
def shl32 (x n : Nat) : Nat := (x <<< n) % 2 ^ 32

/-! ## Predicates and sample data used by the statements -/

/-- Every slot of the table, read as `NUM_OPS` pointers, is non-null. -/
def all_ops_defined (bus_ops : hif_bus_ops) : Prop :=
  ∀ i, i < NUM_OPS → (ops_array bus_ops)[i]? ≠ some none

instance (bus_ops : hif_bus_ops) : Decidable (all_ops_defined bus_ops) := by
  unfold all_ops_defined; infer_instance

/-- The bus types for which `hif_bus_open` has a backend. -/
def supported (bus_type : qdf_bus_type) : Prop :=
  bus_type = QDF_BUS_TYPE_PCI ∨ bus_type = QDF_BUS_TYPE_AHB ∨
  bus_type = QDF_BUS_TYPE_SNOC ∨ bus_type = QDF_BUS_TYPE_SDIO

instance (bus_type : qdf_bus_type) : Decidable (supported bus_type) := by
  unfold supported; infer_instance

/-- A table whose slots all hold a function: slot `k` holds address `101 + k`. -/
def full_ops : hif_bus_ops :=
  { hif_bus_open := some 101, hif_bus_close := some 102, hif_bus_prevent_linkdown := some 103,
    hif_reset_soc := some 104, hif_bus_suspend := some 105, hif_bus_resume := some 106,
    hif_target_sleep_state_adjust := some 107, hif_disable_isr := some 108,
    hif_nointrs := some 109, hif_enable_bus := some 110, hif_disable_bus := some 111,
    hif_bus_configure := some 112, hif_get_config_item := some 113,
    hif_set_mailbox_swap := some 114, hif_claim_device := some 115,
    hif_shutdown_device := some 116, hif_stop := some 117,
    hif_cancel_deferred_target_sleep := some 118, hif_irq_disable := some 119,
    hif_irq_enable := some 120, hif_dump_registers := some 121,
    hif_dump_target_memory := some 122, hif_ipa_get_ce_resource := some 123,
    hif_mask_interrupt_call := some 124, hif_enable_power_management := some 125,
    hif_disable_power_management := some 126, hif_display_stats := some 127,
    hif_clear_stats := some 128 }

/-- A table whose slots are all null, as in a zero-filled device context. -/
def null_ops : hif_bus_ops :=
  { hif_bus_open := none, hif_bus_close := none, hif_bus_prevent_linkdown := none,
    hif_reset_soc := none, hif_bus_suspend := none, hif_bus_resume := none,
    hif_target_sleep_state_adjust := none, hif_disable_isr := none,
    hif_nointrs := none, hif_enable_bus := none, hif_disable_bus := none,
    hif_bus_configure := none, hif_get_config_item := none,
    hif_set_mailbox_swap := none, hif_claim_device := none,
    hif_shutdown_device := none, hif_stop := none,
    hif_cancel_deferred_target_sleep := none, hif_irq_disable := none,
    hif_irq_enable := none, hif_dump_registers := none,
    hif_dump_target_memory := none, hif_ipa_get_ce_resource := none,
    hif_mask_interrupt_call := none, hif_enable_power_management := none,
    hif_disable_power_management := none, hif_display_stats := none,
    hif_clear_stats := none }

/-- A sample environment. The PCI initializer installs `full_ops`; the SNOC
initializer fills every slot except `hif_bus_close`; the AHB initializer
fails with `QDF_STATUS_E_OTHER 5`; the SDIO initializer fails with
`QDF_STATUS_E_INVAL`. The code behind a slot leaves the device context alone
and returns a value computed from its address and arguments. -/
def sample_env : Env :=
  { hif_dummy_display_stats := 1
    hif_dummy_clear_stats := 2
    hif_initialize_pci_ops := fun hif_sc => (QDF_STATUS_SUCCESS, { hif_sc with bus_ops := full_ops })
    hif_initialize_snoc_ops := fun bus_ops =>
      (QDF_STATUS_SUCCESS, { full_ops with hif_bus_close := bus_ops.hif_bus_close })
    hif_initialize_ahb_ops := fun bus_ops => (QDF_STATUS_E_OTHER 5, bus_ops)
    hif_initialize_sdio_ops := fun hif_sc => (QDF_STATUS_E_INVAL, hif_sc)
    call_bus_open := fun fn hif_sc _ =>
      (if fn = 101 then QDF_STATUS_SUCCESS else QDF_STATUS_E_OTHER fn, hif_sc)
    call_int := fun fn hif_sc => (Int.ofNat fn, hif_sc)
    call_sleep_state_adjust := fun fn hif_sc sleep_ok wait_for_it =>
      (if sleep_ok && wait_for_it then Int.ofNat fn else 0, hif_sc)
    call_enable_bus := fun fn hif_sc dev bdev bid _ =>
      (QDF_STATUS_E_OTHER (fn + dev + bdev + bid), hif_sc)
    call_get_config_item := fun fn hif_sc _ config config_len =>
      (QDF_STATUS_E_OTHER (fn + config + config_len), hif_sc) }

/-- A device context before attach: no slot filled. -/
def blank_softc : hif_softc := { bus_ops := null_ops, other := 7 }

/-- A device context after a successful attach. -/
def attached_softc : hif_softc := { bus_ops := full_ops, other := 7 }

/-- A sample environment that differs from `sample_env` in the code behind
the slots of type `int (*)(struct hif_softc *)`: called with the device
context, it clears `hif_sc->bus_ops.hif_bus_close` and returns 0. -/
def closing_env : Env :=
  { sample_env with
    call_int := fun _ hif_sc =>
      (0, { hif_sc with bus_ops := { hif_sc.bus_ops with hif_bus_close := none } }) }

/-! ## The verifier -/

theorem ops_array_length (bus_ops : hif_bus_ops) : (ops_array bus_ops).length = NUM_OPS := rfl

/-- The loop of the verifier over the first `n` indices: the status is a
failure exactly when one of them holds a null pointer, and every such index
is reported. -/
theorem verify_fold (ops : List (Option FnPtr)) (n : Nat) :
    (List.range n).foldl (verify_step ops) (QDF_STATUS_SUCCESS, []) =
      (if ∀ i, i < n → ops[i]? ≠ some none then QDF_STATUS_SUCCESS else QDF_STATUS_E_NOSUPPORT,
       (List.range n).filter (fun i => decide (ops[i]? = some none))) := by
  induction n with
  | zero => simp
  | succ n ih =>
    rw [List.range_succ, List.foldl_append, ih]
    by_cases hn : ops[n]? = some none
    · have hex : ¬ ∀ i, i < n + 1 → ops[i]? ≠ some none := fun h => h n (Nat.lt_succ_self n) hn
      simp [verify_step, List.filter_append, hn, hex]
    · have hiff : (∀ i, i < n + 1 → ops[i]? ≠ some none) ↔ (∀ i, i < n → ops[i]? ≠ some none) := by
        constructor
        · intro h i hi
          exact h i (Nat.lt_succ_of_lt hi)
        · intro h i hi
          rcases Nat.lt_succ_iff_lt_or_eq.mp hi with hlt | heq
          · exact h i hlt
          · subst heq
            exact hn
      simp only [List.foldl_cons, List.foldl_nil, verify_step, if_neg hn, List.filter_append,
        List.filter_cons, List.filter_nil, decide_eq_true_eq, List.append_nil, hiff]

theorem verify_status (hif_sc : hif_softc) :
    (hif_verify_basic_ops hif_sc).1 =
      if all_ops_defined hif_sc.bus_ops then QDF_STATUS_SUCCESS else QDF_STATUS_E_NOSUPPORT := by
  simp only [hif_verify_basic_ops, verify_fold, all_ops_defined]

theorem verify_state (hif_sc : hif_softc) : (hif_verify_basic_ops hif_sc).2.1 = hif_sc := rfl

theorem all_ops_defined_iff_mem (bus_ops : hif_bus_ops) :
    all_ops_defined bus_ops ↔ ∀ slot ∈ ops_array bus_ops, slot ≠ none := by
  constructor
  · intro h slot hmem hnone
    obtain ⟨i, hi, hget⟩ := List.getElem_of_mem hmem
    have hlt : i < NUM_OPS := by rw [← ops_array_length bus_ops]; exact hi
    apply h i hlt
    rw [List.getElem?_eq_getElem hi, hget, hnone]
  · intro h i _ hi
    exact h none (List.getElem?_mem hi) rfl

/-- In a table without a null slot the open slot holds a function. -/
theorem all_ops_defined_bus_open (bus_ops : hif_bus_ops) (h : all_ops_defined bus_ops) :
    ∃ fn, bus_ops.hif_bus_open = some fn := by
  cases hopen : bus_ops.hif_bus_open with
  | some fn => exact ⟨fn, rfl⟩
  | none =>
    exfalso
    apply h 0 (by decide)
    simp [ops_array, hopen]

/-! ## The attach path -/

/-- For a supported bus the switch calls the initializer of that bus and
nothing else. -/
theorem switch_trace (env : Env) (hif_sc : hif_softc) (bus_type : qdf_bus_type)
    (h : supported bus_type) :
    (hif_bus_open_switch env hif_sc bus_type).2.2 = [Event.backend_init bus_type] := by
  rcases h with h | h | h | h <;> subst h <;> rfl

/-- The three ways out of `hif_bus_open`, in terms of what the switch and
the verifier return. -/
theorem hif_bus_open_eq (env : Env) (hif_sc : hif_softc) (bus_type : qdf_bus_type) :
    hif_bus_open env hif_sc bus_type =
      if (hif_bus_open_switch env (hif_intialize_default_ops env hif_sc) bus_type).1
          ≠ QDF_STATUS_SUCCESS then
        some ((hif_bus_open_switch env (hif_intialize_default_ops env hif_sc) bus_type).1,
          (hif_bus_open_switch env (hif_intialize_default_ops env hif_sc) bus_type).2.1,
          (hif_bus_open_switch env (hif_intialize_default_ops env hif_sc) bus_type).2.2)
      else if ¬ all_ops_defined
          (hif_bus_open_switch env (hif_intialize_default_ops env hif_sc) bus_type).2.1.bus_ops then
        some (QDF_STATUS_E_NOSUPPORT,
          (hif_bus_open_switch env (hif_intialize_default_ops env hif_sc) bus_type).2.1,
          (hif_bus_open_switch env (hif_intialize_default_ops env hif_sc) bus_type).2.2
            ++ [Event.verify_basic_ops])
      else
        match (hif_bus_open_switch env (hif_intialize_default_ops env hif_sc)
            bus_type).2.1.bus_ops.hif_bus_open with
        | none => none
        | some fn =>
          some ((env.call_bus_open fn
              (hif_bus_open_switch env (hif_intialize_default_ops env hif_sc) bus_type).2.1
              bus_type).1,
            (env.call_bus_open fn
              (hif_bus_open_switch env (hif_intialize_default_ops env hif_sc) bus_type).2.1
              bus_type).2,
            (hif_bus_open_switch env (hif_intialize_default_ops env hif_sc) bus_type).2.2
              ++ [Event.verify_basic_ops,
                Event.slot_call Slot.hif_bus_open fn
                  (hif_bus_open_switch env (hif_intialize_default_ops env hif_sc) bus_type).2.1
                  [Arg.bus bus_type]]) := by
  unfold hif_bus_open
  simp only [verify_status, verify_state]
  by_cases h1 : (hif_bus_open_switch env (hif_intialize_default_ops env hif_sc) bus_type).1
      = QDF_STATUS_SUCCESS
  · by_cases h2 : all_ops_defined
        (hif_bus_open_switch env (hif_intialize_default_ops env hif_sc) bus_type).2.1.bus_ops
    · simp [h1, h2]
    · simp [h1, h2]
  · simp [h1]

/-- The PCI branch of the switch is the call of `hif_initialize_pci_ops` on
the device context. -/
theorem switch_pci (env : Env) (hif_sc : hif_softc) :
    hif_bus_open_switch env hif_sc QDF_BUS_TYPE_PCI =
      ((env.hif_initialize_pci_ops hif_sc).1, (env.hif_initialize_pci_ops hif_sc).2,
        [Event.backend_init QDF_BUS_TYPE_PCI]) := rfl

/-- The SNOC branch of the switch is the call of `hif_initialize_snoc_ops`
on the table of the device context. -/
theorem switch_snoc (env : Env) (hif_sc : hif_softc) :
    hif_bus_open_switch env hif_sc QDF_BUS_TYPE_SNOC =
      ((env.hif_initialize_snoc_ops hif_sc.bus_ops).1,
        { hif_sc with bus_ops := (env.hif_initialize_snoc_ops hif_sc.bus_ops).2 },
        [Event.backend_init QDF_BUS_TYPE_SNOC]) := rfl

/-- The AHB branch of the switch is the call of `hif_initialize_ahb_ops` on
the table of the device context. -/
theorem switch_ahb (env : Env) (hif_sc : hif_softc) :
    hif_bus_open_switch env hif_sc QDF_BUS_TYPE_AHB =
      ((env.hif_initialize_ahb_ops hif_sc.bus_ops).1,
        { hif_sc with bus_ops := (env.hif_initialize_ahb_ops hif_sc.bus_ops).2 },
        [Event.backend_init QDF_BUS_TYPE_AHB]) := rfl

/-- The SDIO branch of the switch is the call of `hif_initialize_sdio_ops`
on the device context. -/
theorem switch_sdio (env : Env) (hif_sc : hif_softc) :
    hif_bus_open_switch env hif_sc QDF_BUS_TYPE_SDIO =
      ((env.hif_initialize_sdio_ops hif_sc).1, (env.hif_initialize_sdio_ops hif_sc).2,
        [Event.backend_init QDF_BUS_TYPE_SDIO]) := rfl

/-- When the switch leaves a status other than success, `hif_bus_open`
returns what the switch left. -/
theorem hif_bus_open_init_failed (env : Env) (hif_sc : hif_softc) (bus_type : qdf_bus_type)
    (h : (hif_bus_open_switch env (hif_intialize_default_ops env hif_sc) bus_type).1
      ≠ QDF_STATUS_SUCCESS) :
    hif_bus_open env hif_sc bus_type =
      some (hif_bus_open_switch env (hif_intialize_default_ops env hif_sc) bus_type) := by
  rw [hif_bus_open_eq, if_pos h]

/-- A table whose close slot is null has a null slot. -/
theorem not_all_ops_defined_of_close_null (bus_ops : hif_bus_ops)
    (h : bus_ops.hif_bus_close = none) : ¬ all_ops_defined bus_ops := by
  intro hall
  apply hall 1 (by decide)
  simp [ops_array, h]

/-- For an unsupported bus the switch calls nothing and reports
`QDF_STATUS_E_NOSUPPORT`. -/
theorem switch_unsupported (env : Env) (hif_sc : hif_softc) (bus_type : qdf_bus_type)
    (h : ¬ supported bus_type) :
    hif_bus_open_switch env hif_sc bus_type = (QDF_STATUS_E_NOSUPPORT, hif_sc, []) := by
  cases bus_type with
  | QDF_BUS_TYPE_OTHER v => rfl
  | QDF_BUS_TYPE_PCI => exact absurd (Or.inl rfl) h
  | QDF_BUS_TYPE_AHB => exact absurd (Or.inr (Or.inl rfl)) h
  | QDF_BUS_TYPE_SNOC => exact absurd (Or.inr (Or.inr (Or.inl rfl))) h
  | QDF_BUS_TYPE_SDIO => exact absurd (Or.inr (Or.inr (Or.inr rfl))) h

/-- When the selected initializer succeeds and leaves a null slot, the
attach stops at the verifier. -/
theorem hif_bus_open_incomplete (env : Env) (hif_sc : hif_softc) (bus_type : qdf_bus_type)
    (hsup : supported bus_type)
    (hok : (hif_bus_open_switch env (hif_intialize_default_ops env hif_sc) bus_type).1
      = QDF_STATUS_SUCCESS)
    (hnull : ¬ all_ops_defined
      (hif_bus_open_switch env (hif_intialize_default_ops env hif_sc) bus_type).2.1.bus_ops) :
    hif_bus_open env hif_sc bus_type =
      some (QDF_STATUS_E_NOSUPPORT,
        (hif_bus_open_switch env (hif_intialize_default_ops env hif_sc) bus_type).2.1,
        [Event.backend_init bus_type, Event.verify_basic_ops]) := by
  rw [hif_bus_open_eq, if_neg (not_not.mpr hok), if_pos hnull, switch_trace env _ _ hsup]
  rfl

/-- In a table without a null slot every index holds a function. -/
theorem all_ops_defined_slot (bus_ops : hif_bus_ops) (h : all_ops_defined bus_ops)
    (slot : Option FnPtr) (i : Nat) (hi : i < NUM_OPS)
    (hslot : (ops_array bus_ops)[i]? = some slot) : ∃ fn, slot = some fn := by
  cases hs : slot with
  | some fn => exact ⟨fn, rfl⟩
  | none =>
    exfalso
    apply h i hi
    rw [hslot, hs]

/-! ## Bit fields -/

theorem testBit_false_of_lt (x n i : Nat) (h : x < 2 ^ n) (hi : n ≤ i) : x.testBit i = false :=
  Nat.testBit_lt_two_pow (lt_of_lt_of_le h (Nat.pow_le_pow_right (by decide) hi))

/-- A field of `k` bits shifted to bit `n` fits in 32 bits when
`k + n ≤ 32`: the shift of `uint32_t` loses nothing. -/
theorem shl32_eq (x n k : Nat) (hx : x < 2 ^ k) (hk : k + n ≤ 32) : shl32 x n = x <<< n := by
  unfold shl32
  apply Nat.mod_eq_of_lt
  rw [Nat.shiftLeft_eq]
  calc x * 2 ^ n < 2 ^ k * 2 ^ n := Nat.mul_lt_mul_of_pos_right hx (Nat.two_pow_pos n)
    _ = 2 ^ (k + n) := (Nat.pow_add 2 k n).symm
    _ ≤ 2 ^ 32 := Nat.pow_le_pow_right (by decide) hk

theorem qid_field_roundtrip (Q c r : Nat) (hQ : Q < 2 ^ 14) (hc : c < 2 ^ 4) (hr : r < 2 ^ 8) :
    ((c <<< 0 ||| r <<< 8 ||| Q <<< 16) &&& 0x3fff0000) >>> 16 = Q := by
  have hm : (0x3fff0000 : Nat) = (2 ^ 14 - 1) <<< 16 := by decide
  rw [hm]
  apply Nat.eq_of_testBit_eq
  intro i
  simp only [Nat.testBit_shiftRight, Nat.testBit_and, Nat.testBit_or, Nat.testBit_shiftLeft,
    Nat.testBit_two_pow_sub_one]
  have h1 : c.testBit (16 + i) = false := testBit_false_of_lt c 4 _ hc (by omega)
  have h2 : r.testBit (16 + i - 8) = false := testBit_false_of_lt r 8 _ hr (by omega)
  by_cases hi : i < 14
  · simp [h1, h2, hi]
  · have h3 : Q.testBit i = false := testBit_false_of_lt Q 14 _ hQ (by omega)
    simp [h1, h2, hi, h3]

theorem reserved_0a_zero (Q c r : Nat) (hc : c < 2 ^ 4) :
    (c <<< 0 ||| r <<< 8 ||| Q <<< 16) &&& 0x000000f0 = 0 := by
  have hm : (0x000000f0 : Nat) = (2 ^ 4 - 1) <<< 4 := by decide
  rw [hm]
  apply Nat.eq_of_testBit_eq
  intro i
  simp only [Nat.testBit_and, Nat.testBit_or, Nat.testBit_shiftLeft,
    Nat.testBit_two_pow_sub_one, Nat.zero_testBit]
  by_cases hi : 4 ≤ i ∧ i - 4 < 4
  · have h1 : c.testBit i = false := testBit_false_of_lt c 4 _ hc (by omega)
    have h2 : (decide (i ≥ 8)) = false := by simp; omega
    have h3 : (decide (i ≥ 16)) = false := by simp; omega
    simp [h1, h2, h3]
  · have h4 : (decide (i ≥ 4) && decide (i - 4 < 4)) = false := by
      simp at hi ⊢
      exact hi
    simp [h4]

theorem reserved_0b_zero (Q c r : Nat) (hQ : Q < 2 ^ 14) (hc : c < 2 ^ 4) (hr : r < 2 ^ 8) :
    (c <<< 0 ||| r <<< 8 ||| Q <<< 16) &&& 0xc0000000 = 0 := by
  have hm : (0xc0000000 : Nat) = (2 ^ 2 - 1) <<< 30 := by decide
  rw [hm]
  apply Nat.eq_of_testBit_eq
  intro i
  simp only [Nat.testBit_and, Nat.testBit_or, Nat.testBit_shiftLeft,
    Nat.testBit_two_pow_sub_one, Nat.zero_testBit]
  by_cases hi : 30 ≤ i
  · have h1 : c.testBit i = false := testBit_false_of_lt c 4 _ hc (by omega)
    have h2 : r.testBit (i - 8) = false := testBit_false_of_lt r 8 _ hr (by omega)
    have h3 : Q.testBit (i - 16) = false := testBit_false_of_lt Q 14 _ hQ (by omega)
    simp [h1, h2, h3]
  · have h4 : (decide (i ≥ 30)) = false := by simp; omega
    simp [h4]

/-! ## Claims -/

/-- Claim C1: for a bus type among PCI, AHB, SNOC and SDIO, any backend
initializers and any initial table, if `hif_bus_open` returns
`QDF_STATUS_SUCCESS` then every slot of the table is non-null afterwards,
the code behind the open slot being taken not to modify the table. -/
theorem C1_success_implies_complete (env : Env) (hif_sc : hif_softc) (bus_type : qdf_bus_type)
    (hif_sc_after : hif_softc) (trace : List Event)
    (_hsup : supported bus_type)
    (hopen : ∀ fn sc b, (env.call_bus_open fn sc b).2.bus_ops = sc.bus_ops)
    (h : hif_bus_open env hif_sc bus_type = some (QDF_STATUS_SUCCESS, hif_sc_after, trace)) :
    all_ops_defined hif_sc_after.bus_ops ∧
    ∀ slot ∈ ops_array hif_sc_after.bus_ops, slot ≠ none := by
  rw [← all_ops_defined_iff_mem, and_self]
  rw [hif_bus_open_eq] at h
  by_cases h1 : (hif_bus_open_switch env (hif_intialize_default_ops env hif_sc) bus_type).1
      = QDF_STATUS_SUCCESS
  · by_cases h2 : all_ops_defined
        (hif_bus_open_switch env (hif_intialize_default_ops env hif_sc) bus_type).2.1.bus_ops
    · obtain ⟨fn, hfn⟩ := all_ops_defined_bus_open _ h2
      rw [if_neg (not_not.mpr h1), if_neg (not_not.mpr h2), hfn] at h
      simp only [Option.some.injEq, Prod.mk.injEq] at h
      rw [← h.2.1, hopen]
      exact h2
    · rw [if_neg (not_not.mpr h1), if_pos h2] at h
      simp only [Option.some.injEq, Prod.mk.injEq] at h
      exact absurd h.1 (by decide)
  · rw [if_pos h1] at h
    simp only [Option.some.injEq, Prod.mk.injEq] at h
    exact absurd h.1 h1

theorem C1_success_implies_complete_witness :
    supported QDF_BUS_TYPE_PCI ∧
    (∀ fn sc b, (sample_env.call_bus_open fn sc b).2.bus_ops = sc.bus_ops) ∧
    hif_bus_open sample_env blank_softc QDF_BUS_TYPE_PCI =
      some (QDF_STATUS_SUCCESS, attached_softc,
        [Event.backend_init QDF_BUS_TYPE_PCI, Event.verify_basic_ops,
         Event.slot_call Slot.hif_bus_open 101 attached_softc [Arg.bus QDF_BUS_TYPE_PCI]]) ∧
    (all_ops_defined attached_softc.bus_ops ∧
      ∀ slot ∈ ops_array attached_softc.bus_ops, slot ≠ none) :=
  ⟨by decide, fun _ _ _ => rfl, by decide,
    C1_success_implies_complete sample_env blank_softc QDF_BUS_TYPE_PCI attached_softc
      [Event.backend_init QDF_BUS_TYPE_PCI, Event.verify_basic_ops,
       Event.slot_call Slot.hif_bus_open 101 attached_softc [Arg.bus QDF_BUS_TYPE_PCI]]
      (by decide) (fun _ _ _ => rfl) (by decide)⟩

/-- Claim C2: for a bus type that is none of PCI, SNOC, AHB, SDIO and any
initial table, `hif_bus_open` returns `QDF_STATUS_E_NOSUPPORT`, makes no
call at all (no backend initializer, no verifier, no open slot), and leaves
the device context with the initial table in which `hif_bus_close` is null,
`hif_display_stats` and `hif_clear_stats` are the dummy functions and every
other slot is as before. -/
theorem C2_unknown_bus_type (env : Env) (hif_sc : hif_softc) (bus_type : qdf_bus_type)
    (h : ¬ supported bus_type) :
    hif_bus_open env hif_sc bus_type =
      some (QDF_STATUS_E_NOSUPPORT,
        { hif_sc with bus_ops :=
            { hif_sc.bus_ops with
              hif_bus_close := none
              hif_display_stats := some env.hif_dummy_display_stats
              hif_clear_stats := some env.hif_dummy_clear_stats } },
        []) := by
  rw [hif_bus_open_eq, switch_unsupported env _ _ h]
  rfl

theorem C2_unknown_bus_type_witness :
    ¬ supported (QDF_BUS_TYPE_OTHER 3) ∧
    hif_bus_open sample_env attached_softc (QDF_BUS_TYPE_OTHER 3) =
      some (QDF_STATUS_E_NOSUPPORT,
        { attached_softc with bus_ops :=
            { attached_softc.bus_ops with
              hif_bus_close := none
              hif_display_stats := some sample_env.hif_dummy_display_stats
              hif_clear_stats := some sample_env.hif_dummy_clear_stats } },
        []) :=
  ⟨by decide, C2_unknown_bus_type sample_env attached_softc (QDF_BUS_TYPE_OTHER 3) (by decide)⟩

/-- Claim C3: for a supported bus type whose backend initializer reports
success but leaves a slot of the table null, `hif_bus_open` returns a
status other than `QDF_STATUS_SUCCESS` and the calls it makes are the
initializer and the verifier only: the open slot is not called. -/
theorem C3_null_slot_fails_before_open (env : Env) (hif_sc : hif_softc)
    (bus_type : qdf_bus_type) (hsup : supported bus_type)
    (hok : (hif_bus_open_switch env (hif_intialize_default_ops env hif_sc) bus_type).1
      = QDF_STATUS_SUCCESS)
    (hnull : ¬ all_ops_defined
      (hif_bus_open_switch env (hif_intialize_default_ops env hif_sc) bus_type).2.1.bus_ops) :
    ∃ status hif_sc_after trace,
      hif_bus_open env hif_sc bus_type = some (status, hif_sc_after, trace) ∧
      status ≠ QDF_STATUS_SUCCESS ∧
      trace = [Event.backend_init bus_type, Event.verify_basic_ops] ∧
      ∀ fn sc args, Event.slot_call Slot.hif_bus_open fn sc args ∉ trace := by
  refine ⟨_, _, _, hif_bus_open_incomplete env hif_sc bus_type hsup hok hnull, by decide, rfl, ?_⟩
  intro fn sc args hmem
  simp at hmem

theorem C3_null_slot_fails_before_open_witness :
    supported QDF_BUS_TYPE_SNOC ∧
    (hif_bus_open_switch sample_env (hif_intialize_default_ops sample_env blank_softc)
      QDF_BUS_TYPE_SNOC).1 = QDF_STATUS_SUCCESS ∧
    (hif_bus_open_switch sample_env (hif_intialize_default_ops sample_env blank_softc)
      QDF_BUS_TYPE_SNOC).2.1.bus_ops.hif_bus_close = none ∧
    ∃ status hif_sc_after trace,
      hif_bus_open sample_env blank_softc QDF_BUS_TYPE_SNOC
        = some (status, hif_sc_after, trace) ∧
      status ≠ QDF_STATUS_SUCCESS ∧
      trace = [Event.backend_init QDF_BUS_TYPE_SNOC, Event.verify_basic_ops] ∧
      ∀ fn sc args, Event.slot_call Slot.hif_bus_open fn sc args ∉ trace :=
  ⟨by decide, by decide, by decide,
    C3_null_slot_fails_before_open sample_env blank_softc QDF_BUS_TYPE_SNOC (by decide)
      (by decide) (not_all_ops_defined_of_close_null _ (by decide))⟩

/-- Claim C4: for each supported bus type (PCI, SNOC, AHB, SDIO), if the
backend table-initializer of that bus, called as `hif_bus_open` calls it
(on the defaulted device context, or on its table for SNOC and AHB),
returns a status `s` other than `QDF_STATUS_SUCCESS`, then `hif_bus_open`
returns exactly `s`, with the device context as the initializer left it, and
the only call it makes is that initializer: neither the verifier nor the
open slot is called. -/
theorem C4_initializer_failure_verbatim (env : Env) (hif_sc : hif_softc) (s : QDF_STATUS)
    (hs : s ≠ QDF_STATUS_SUCCESS) :
    ((env.hif_initialize_pci_ops (hif_intialize_default_ops env hif_sc)).1 = s →
      ∃ trace,
        hif_bus_open env hif_sc QDF_BUS_TYPE_PCI =
          some (s, (env.hif_initialize_pci_ops (hif_intialize_default_ops env hif_sc)).2, trace) ∧
        trace = [Event.backend_init QDF_BUS_TYPE_PCI] ∧
        Event.verify_basic_ops ∉ trace ∧
        ∀ fn sc args, Event.slot_call Slot.hif_bus_open fn sc args ∉ trace) ∧
    ((env.hif_initialize_snoc_ops (hif_intialize_default_ops env hif_sc).bus_ops).1 = s →
      ∃ trace,
        hif_bus_open env hif_sc QDF_BUS_TYPE_SNOC =
          some (s, { (hif_intialize_default_ops env hif_sc) with bus_ops := (env.hif_initialize_snoc_ops (hif_intialize_default_ops env hif_sc).bus_ops).2 }, trace) ∧
        trace = [Event.backend_init QDF_BUS_TYPE_SNOC] ∧
        Event.verify_basic_ops ∉ trace ∧
        ∀ fn sc args, Event.slot_call Slot.hif_bus_open fn sc args ∉ trace) ∧
    ((env.hif_initialize_ahb_ops (hif_intialize_default_ops env hif_sc).bus_ops).1 = s →
      ∃ trace,
        hif_bus_open env hif_sc QDF_BUS_TYPE_AHB =
          some (s, { (hif_intialize_default_ops env hif_sc) with bus_ops := (env.hif_initialize_ahb_ops (hif_intialize_default_ops env hif_sc).bus_ops).2 }, trace) ∧
        trace = [Event.backend_init QDF_BUS_TYPE_AHB] ∧
        Event.verify_basic_ops ∉ trace ∧
        ∀ fn sc args, Event.slot_call Slot.hif_bus_open fn sc args ∉ trace) ∧
    ((env.hif_initialize_sdio_ops (hif_intialize_default_ops env hif_sc)).1 = s →
      ∃ trace,
        hif_bus_open env hif_sc QDF_BUS_TYPE_SDIO =
          some (s, (env.hif_initialize_sdio_ops (hif_intialize_default_ops env hif_sc)).2, trace) ∧
        trace = [Event.backend_init QDF_BUS_TYPE_SDIO] ∧
        Event.verify_basic_ops ∉ trace ∧
        ∀ fn sc args, Event.slot_call Slot.hif_bus_open fn sc args ∉ trace) := by
  refine ⟨?_, ?_, ?_, ?_⟩
  · intro h
    subst h
    refine ⟨[Event.backend_init QDF_BUS_TYPE_PCI], ?_, rfl, by simp, by simp⟩
    rw [hif_bus_open_init_failed env hif_sc QDF_BUS_TYPE_PCI (by rw [switch_pci]; exact hs), switch_pci]
  · intro h
    subst h
    refine ⟨[Event.backend_init QDF_BUS_TYPE_SNOC], ?_, rfl, by simp, by simp⟩
    rw [hif_bus_open_init_failed env hif_sc QDF_BUS_TYPE_SNOC (by rw [switch_snoc]; exact hs), switch_snoc]
  · intro h
    subst h
    refine ⟨[Event.backend_init QDF_BUS_TYPE_AHB], ?_, rfl, by simp, by simp⟩
    rw [hif_bus_open_init_failed env hif_sc QDF_BUS_TYPE_AHB (by rw [switch_ahb]; exact hs), switch_ahb]
  · intro h
    subst h
    refine ⟨[Event.backend_init QDF_BUS_TYPE_SDIO], ?_, rfl, by simp, by simp⟩
    rw [hif_bus_open_init_failed env hif_sc QDF_BUS_TYPE_SDIO (by rw [switch_sdio]; exact hs), switch_sdio]

theorem C4_initializer_failure_verbatim_witness :
    QDF_STATUS_E_OTHER 5 ≠ QDF_STATUS_SUCCESS ∧
    (sample_env.hif_initialize_ahb_ops
      (hif_intialize_default_ops sample_env blank_softc).bus_ops).1 = QDF_STATUS_E_OTHER 5 ∧
    ∃ trace,
      hif_bus_open sample_env blank_softc QDF_BUS_TYPE_AHB =
        some (QDF_STATUS_E_OTHER 5,
          { (hif_intialize_default_ops sample_env blank_softc) with
            bus_ops := (sample_env.hif_initialize_ahb_ops
              (hif_intialize_default_ops sample_env blank_softc).bus_ops).2 },
          trace) ∧
      trace = [Event.backend_init QDF_BUS_TYPE_AHB] ∧
      Event.verify_basic_ops ∉ trace ∧
      ∀ fn sc args, Event.slot_call Slot.hif_bus_open fn sc args ∉ trace :=
  ⟨by decide, by decide,
    (C4_initializer_failure_verbatim sample_env blank_softc (QDF_STATUS_E_OTHER 5)
      (by decide)).2.2.1 (by decide)⟩

/-- Claim C5: for a supported bus type whose backend initializer returns
`QDF_STATUS_SUCCESS` and leaves every slot non-null, `hif_bus_open` calls
the function in the open slot exactly once, with the device context the
initializer left and the same `bus_type`, and returns exactly the status of
that call; before it, the initializer of `bus_type` and no other
initializer was run, then the verifier. -/
theorem C5_delegates_to_backend_open (env : Env) (hif_sc : hif_softc)
    (bus_type : qdf_bus_type) (hsup : supported bus_type)
    (hok : (hif_bus_open_switch env (hif_intialize_default_ops env hif_sc) bus_type).1
      = QDF_STATUS_SUCCESS)
    (hall : all_ops_defined
      (hif_bus_open_switch env (hif_intialize_default_ops env hif_sc) bus_type).2.1.bus_ops) :
    ∃ fn,
      (hif_bus_open_switch env (hif_intialize_default_ops env hif_sc)
        bus_type).2.1.bus_ops.hif_bus_open = some fn ∧
      hif_bus_open env hif_sc bus_type =
        some ((env.call_bus_open fn
            (hif_bus_open_switch env (hif_intialize_default_ops env hif_sc) bus_type).2.1
            bus_type).1,
          (env.call_bus_open fn
            (hif_bus_open_switch env (hif_intialize_default_ops env hif_sc) bus_type).2.1
            bus_type).2,
          [Event.backend_init bus_type, Event.verify_basic_ops,
           Event.slot_call Slot.hif_bus_open fn
            (hif_bus_open_switch env (hif_intialize_default_ops env hif_sc) bus_type).2.1
            [Arg.bus bus_type]]) := by
  obtain ⟨fn, hfn⟩ := all_ops_defined_bus_open _ hall
  refine ⟨fn, hfn, ?_⟩
  rw [hif_bus_open_eq, if_neg (not_not.mpr hok), if_neg (not_not.mpr hall), hfn,
    switch_trace env _ _ hsup]
  rfl

theorem C5_delegates_to_backend_open_witness :
    supported QDF_BUS_TYPE_PCI ∧
    (hif_bus_open_switch sample_env (hif_intialize_default_ops sample_env blank_softc)
      QDF_BUS_TYPE_PCI).1 = QDF_STATUS_SUCCESS ∧
    all_ops_defined (hif_bus_open_switch sample_env
      (hif_intialize_default_ops sample_env blank_softc) QDF_BUS_TYPE_PCI).2.1.bus_ops ∧
    ∃ fn,
      (hif_bus_open_switch sample_env (hif_intialize_default_ops sample_env blank_softc)
        QDF_BUS_TYPE_PCI).2.1.bus_ops.hif_bus_open = some fn ∧
      hif_bus_open sample_env blank_softc QDF_BUS_TYPE_PCI =
        some ((sample_env.call_bus_open fn
            (hif_bus_open_switch sample_env (hif_intialize_default_ops sample_env blank_softc)
              QDF_BUS_TYPE_PCI).2.1
            QDF_BUS_TYPE_PCI).1,
          (sample_env.call_bus_open fn
            (hif_bus_open_switch sample_env (hif_intialize_default_ops sample_env blank_softc)
              QDF_BUS_TYPE_PCI).2.1
            QDF_BUS_TYPE_PCI).2,
          [Event.backend_init QDF_BUS_TYPE_PCI, Event.verify_basic_ops,
           Event.slot_call Slot.hif_bus_open fn
            (hif_bus_open_switch sample_env (hif_intialize_default_ops sample_env blank_softc)
              QDF_BUS_TYPE_PCI).2.1
            [Arg.bus QDF_BUS_TYPE_PCI]]) :=
  ⟨by decide, by decide, by decide,
    C5_delegates_to_backend_open sample_env blank_softc QDF_BUS_TYPE_PCI (by decide)
      (by decide) (by decide)⟩

/-- Claim C8: `hif_intialize_default_ops` is idempotent: applied twice to
any device context it yields the same operation table, and the same device
context, as applied once. -/
theorem C8_default_ops_idempotent (env : Env) (hif_sc : hif_softc) :
    hif_intialize_default_ops env (hif_intialize_default_ops env hif_sc)
      = hif_intialize_default_ops env hif_sc ∧
    (hif_intialize_default_ops env (hif_intialize_default_ops env hif_sc)).bus_ops
      = (hif_intialize_default_ops env hif_sc).bus_ops :=
  ⟨rfl, rfl⟩

/-- Claim C9: on the table read as its `NUM_OPS` pointer slots,
`hif_verify_basic_ops` returns `QDF_STATUS_SUCCESS` exactly when every
slot is non-null and `QDF_STATUS_E_NOSUPPORT` otherwise, whichever and
however many slots are null; it examines all `NUM_OPS` slots, reporting the
index of every null one; and it leaves the device context, the table
included, as it was. -/
theorem C9_verify_basic_ops (hif_sc : hif_softc) :
    (ops_array hif_sc.bus_ops).length = NUM_OPS ∧
    ((hif_verify_basic_ops hif_sc).1 = QDF_STATUS_SUCCESS ↔
      ∀ slot ∈ ops_array hif_sc.bus_ops, slot ≠ none) ∧
    (hif_verify_basic_ops hif_sc).1 =
      (if ∀ slot ∈ ops_array hif_sc.bus_ops, slot ≠ none then QDF_STATUS_SUCCESS
       else QDF_STATUS_E_NOSUPPORT) ∧
    (hif_verify_basic_ops hif_sc).2.2 =
      (List.range NUM_OPS).filter (fun i => decide ((ops_array hif_sc.bus_ops)[i]? = some none)) ∧
    (hif_verify_basic_ops hif_sc).2.1 = hif_sc := by
  have hst := verify_status hif_sc
  have hiff := all_ops_defined_iff_mem hif_sc.bus_ops
  refine ⟨rfl, ?_, ?_, ?_, rfl⟩
  · rw [hst, ← hiff]
    by_cases h : all_ops_defined hif_sc.bus_ops
    · simp [h]
    · simp [h]
  · rw [hst]
    by_cases h : all_ops_defined hif_sc.bus_ops
    · rw [if_pos h, if_pos (hiff.mp h)]
    · rw [if_neg h, if_neg (fun h2 => h (hiff.mpr h2))]
  · simp only [hif_verify_basic_ops, verify_fold]

/-- Claim C10: the status `hif_bus_open` returns when the verifier fails (a
supported bus type whose initializer succeeded and left a slot null) and
the status it returns for an unknown bus type are the same status,
`QDF_STATUS_E_NOSUPPORT`. -/
theorem C10_incomplete_and_unknown_same_status (env : Env) (hif_sc : hif_softc)
    (bus_type : qdf_bus_type) (env2 : Env) (hif_sc2 : hif_softc) (bus_type2 : qdf_bus_type)
    (hsup : supported bus_type)
    (hok : (hif_bus_open_switch env (hif_intialize_default_ops env hif_sc) bus_type).1
      = QDF_STATUS_SUCCESS)
    (hnull : ¬ all_ops_defined
      (hif_bus_open_switch env (hif_intialize_default_ops env hif_sc) bus_type).2.1.bus_ops)
    (hunknown : ¬ supported bus_type2) :
    (hif_bus_open env hif_sc bus_type).map (fun r => r.1) = some QDF_STATUS_E_NOSUPPORT ∧
    (hif_bus_open env2 hif_sc2 bus_type2).map (fun r => r.1) = some QDF_STATUS_E_NOSUPPORT ∧
    (hif_bus_open env hif_sc bus_type).map (fun r => r.1)
      = (hif_bus_open env2 hif_sc2 bus_type2).map (fun r => r.1) := by
  have h1 : (hif_bus_open env hif_sc bus_type).map (fun r => r.1)
      = some QDF_STATUS_E_NOSUPPORT := by
    rw [hif_bus_open_incomplete env hif_sc bus_type hsup hok hnull]
    rfl
  have h2 : (hif_bus_open env2 hif_sc2 bus_type2).map (fun r => r.1)
      = some QDF_STATUS_E_NOSUPPORT := by
    rw [hif_bus_open_eq, switch_unsupported env2 _ _ hunknown]
    rfl
  exact ⟨h1, h2, h1.trans h2.symm⟩

theorem C10_incomplete_and_unknown_same_status_witness :
    supported QDF_BUS_TYPE_SNOC ∧
    (hif_bus_open_switch sample_env (hif_intialize_default_ops sample_env blank_softc)
      QDF_BUS_TYPE_SNOC).1 = QDF_STATUS_SUCCESS ∧
    ¬ all_ops_defined (hif_bus_open_switch sample_env
      (hif_intialize_default_ops sample_env blank_softc) QDF_BUS_TYPE_SNOC).2.1.bus_ops ∧
    ¬ supported (QDF_BUS_TYPE_OTHER 3) ∧
    ((hif_bus_open sample_env blank_softc QDF_BUS_TYPE_SNOC).map (fun r => r.1)
        = some QDF_STATUS_E_NOSUPPORT ∧
      (hif_bus_open sample_env attached_softc (QDF_BUS_TYPE_OTHER 3)).map (fun r => r.1)
        = some QDF_STATUS_E_NOSUPPORT ∧
      (hif_bus_open sample_env blank_softc QDF_BUS_TYPE_SNOC).map (fun r => r.1)
        = (hif_bus_open sample_env attached_softc (QDF_BUS_TYPE_OTHER 3)).map (fun r => r.1)) :=
  ⟨by decide, by decide, by decide, by decide,
    C10_incomplete_and_unknown_same_status sample_env blank_softc QDF_BUS_TYPE_SNOC
      sample_env attached_softc (QDF_BUS_TYPE_OTHER 3) (by decide) (by decide) (by decide)
      (by decide)⟩

/-- Claim C6, as amended: on a table with every slot populated, each
value-returning facade entry point (`hif_dump_registers`,
`hif_get_config_item`, `hif_bus_suspend`, `hif_bus_resume`,
`hif_target_sleep_state_adjust`, `hif_enable_bus`, `hif_bus_configure`)
makes exactly one call, to the function held by the slot of the same name,
with the device context as received and the remaining arguments unchanged
and in the same order, and returns the result of that call unchanged. The
entry point itself writes nothing, so the device context afterwards is the
one the called function left: the operation table is unmodified provided
the called function left it unmodified. -/
theorem C6_facade_forwards (env : Env) (hif_sc : hif_softc)
    (sleep_ok wait_for_it : Bool) (dev bdev bid : Nat) (type : Int)
    (opcode : Int) (config config_len : Nat)
    (h : all_ops_defined hif_sc.bus_ops) :
    (∃ fn, hif_sc.bus_ops.hif_dump_registers = some fn ∧
      hif_dump_registers env hif_sc =
        some ((env.call_int fn hif_sc).1, (env.call_int fn hif_sc).2,
          [Event.slot_call Slot.hif_dump_registers fn hif_sc []]) ∧
      ((env.call_int fn hif_sc).2.bus_ops = hif_sc.bus_ops →
        ∀ r ∈ hif_dump_registers env hif_sc, r.2.1.bus_ops = hif_sc.bus_ops)) ∧
    (∃ fn, hif_sc.bus_ops.hif_get_config_item = some fn ∧
      hif_get_config_item env hif_sc opcode config config_len =
        some ((env.call_get_config_item fn hif_sc opcode config config_len).1,
          (env.call_get_config_item fn hif_sc opcode config config_len).2,
          [Event.slot_call Slot.hif_get_config_item fn hif_sc
            [Arg.int opcode, Arg.ptr config, Arg.u32 config_len]]) ∧
      ((env.call_get_config_item fn hif_sc opcode config config_len).2.bus_ops = hif_sc.bus_ops →
        ∀ r ∈ hif_get_config_item env hif_sc opcode config config_len,
          r.2.1.bus_ops = hif_sc.bus_ops)) ∧
    (∃ fn, hif_sc.bus_ops.hif_bus_suspend = some fn ∧
      hif_bus_suspend env hif_sc =
        some ((env.call_int fn hif_sc).1, (env.call_int fn hif_sc).2,
          [Event.slot_call Slot.hif_bus_suspend fn hif_sc []]) ∧
      ((env.call_int fn hif_sc).2.bus_ops = hif_sc.bus_ops →
        ∀ r ∈ hif_bus_suspend env hif_sc, r.2.1.bus_ops = hif_sc.bus_ops)) ∧
    (∃ fn, hif_sc.bus_ops.hif_bus_resume = some fn ∧
      hif_bus_resume env hif_sc =
        some ((env.call_int fn hif_sc).1, (env.call_int fn hif_sc).2,
          [Event.slot_call Slot.hif_bus_resume fn hif_sc []]) ∧
      ((env.call_int fn hif_sc).2.bus_ops = hif_sc.bus_ops →
        ∀ r ∈ hif_bus_resume env hif_sc, r.2.1.bus_ops = hif_sc.bus_ops)) ∧
    (∃ fn, hif_sc.bus_ops.hif_target_sleep_state_adjust = some fn ∧
      hif_target_sleep_state_adjust env hif_sc sleep_ok wait_for_it =
        some ((env.call_sleep_state_adjust fn hif_sc sleep_ok wait_for_it).1,
          (env.call_sleep_state_adjust fn hif_sc sleep_ok wait_for_it).2,
          [Event.slot_call Slot.hif_target_sleep_state_adjust fn hif_sc
            [Arg.bool sleep_ok, Arg.bool wait_for_it]]) ∧
      ((env.call_sleep_state_adjust fn hif_sc sleep_ok wait_for_it).2.bus_ops = hif_sc.bus_ops →
        ∀ r ∈ hif_target_sleep_state_adjust env hif_sc sleep_ok wait_for_it,
          r.2.1.bus_ops = hif_sc.bus_ops)) ∧
    (∃ fn, hif_sc.bus_ops.hif_enable_bus = some fn ∧
      hif_enable_bus env hif_sc dev bdev bid type =
        some ((env.call_enable_bus fn hif_sc dev bdev bid type).1,
          (env.call_enable_bus fn hif_sc dev bdev bid type).2,
          [Event.slot_call Slot.hif_enable_bus fn hif_sc
            [Arg.ptr dev, Arg.ptr bdev, Arg.ptr bid, Arg.int type]]) ∧
      ((env.call_enable_bus fn hif_sc dev bdev bid type).2.bus_ops = hif_sc.bus_ops →
        ∀ r ∈ hif_enable_bus env hif_sc dev bdev bid type, r.2.1.bus_ops = hif_sc.bus_ops)) ∧
    (∃ fn, hif_sc.bus_ops.hif_bus_configure = some fn ∧
      hif_bus_configure env hif_sc =
        some ((env.call_int fn hif_sc).1, (env.call_int fn hif_sc).2,
          [Event.slot_call Slot.hif_bus_configure fn hif_sc []]) ∧
      ((env.call_int fn hif_sc).2.bus_ops = hif_sc.bus_ops →
        ∀ r ∈ hif_bus_configure env hif_sc, r.2.1.bus_ops = hif_sc.bus_ops)) := by
  obtain ⟨f20, h20⟩ := all_ops_defined_slot _ h hif_sc.bus_ops.hif_dump_registers 20
    (by decide) rfl
  obtain ⟨f12, h12⟩ := all_ops_defined_slot _ h hif_sc.bus_ops.hif_get_config_item 12
    (by decide) rfl
  obtain ⟨f4, h4⟩ := all_ops_defined_slot _ h hif_sc.bus_ops.hif_bus_suspend 4 (by decide) rfl
  obtain ⟨f5, h5⟩ := all_ops_defined_slot _ h hif_sc.bus_ops.hif_bus_resume 5 (by decide) rfl
  obtain ⟨f6, h6⟩ := all_ops_defined_slot _ h hif_sc.bus_ops.hif_target_sleep_state_adjust 6
    (by decide) rfl
  obtain ⟨f9, h9⟩ := all_ops_defined_slot _ h hif_sc.bus_ops.hif_enable_bus 9 (by decide) rfl
  obtain ⟨f11, h11⟩ := all_ops_defined_slot _ h hif_sc.bus_ops.hif_bus_configure 11
    (by decide) rfl
  have e20 : hif_dump_registers env hif_sc =
      some ((env.call_int f20 hif_sc).1, (env.call_int f20 hif_sc).2,
        [Event.slot_call Slot.hif_dump_registers f20 hif_sc []]) := by
    simp only [hif_dump_registers, HIF_GET_SOFTC, h20]
  have e12 : hif_get_config_item env hif_sc opcode config config_len =
      some ((env.call_get_config_item f12 hif_sc opcode config config_len).1,
        (env.call_get_config_item f12 hif_sc opcode config config_len).2,
        [Event.slot_call Slot.hif_get_config_item f12 hif_sc
          [Arg.int opcode, Arg.ptr config, Arg.u32 config_len]]) := by
    simp only [hif_get_config_item, HIF_GET_SOFTC, h12]
  have e4 : hif_bus_suspend env hif_sc =
      some ((env.call_int f4 hif_sc).1, (env.call_int f4 hif_sc).2,
        [Event.slot_call Slot.hif_bus_suspend f4 hif_sc []]) := by
    simp only [hif_bus_suspend, HIF_GET_SOFTC, h4]
  have e5 : hif_bus_resume env hif_sc =
      some ((env.call_int f5 hif_sc).1, (env.call_int f5 hif_sc).2,
        [Event.slot_call Slot.hif_bus_resume f5 hif_sc []]) := by
    simp only [hif_bus_resume, HIF_GET_SOFTC, h5]
  have e6 : hif_target_sleep_state_adjust env hif_sc sleep_ok wait_for_it =
      some ((env.call_sleep_state_adjust f6 hif_sc sleep_ok wait_for_it).1,
        (env.call_sleep_state_adjust f6 hif_sc sleep_ok wait_for_it).2,
        [Event.slot_call Slot.hif_target_sleep_state_adjust f6 hif_sc
          [Arg.bool sleep_ok, Arg.bool wait_for_it]]) := by
    simp only [hif_target_sleep_state_adjust, h6]
  have e9 : hif_enable_bus env hif_sc dev bdev bid type =
      some ((env.call_enable_bus f9 hif_sc dev bdev bid type).1,
        (env.call_enable_bus f9 hif_sc dev bdev bid type).2,
        [Event.slot_call Slot.hif_enable_bus f9 hif_sc
          [Arg.ptr dev, Arg.ptr bdev, Arg.ptr bid, Arg.int type]]) := by
    simp only [hif_enable_bus, h9]
  have e11 : hif_bus_configure env hif_sc =
      some ((env.call_int f11 hif_sc).1, (env.call_int f11 hif_sc).2,
        [Event.slot_call Slot.hif_bus_configure f11 hif_sc []]) := by
    simp only [hif_bus_configure, h11]
  refine ⟨⟨f20, h20, e20, ?_⟩, ⟨f12, h12, e12, ?_⟩, ⟨f4, h4, e4, ?_⟩, ⟨f5, h5, e5, ?_⟩,
    ⟨f6, h6, e6, ?_⟩, ⟨f9, h9, e9, ?_⟩, ⟨f11, h11, e11, ?_⟩⟩
  · intro hp r hr
    rw [e20, Option.mem_def, Option.some.injEq] at hr
    rw [← hr]; exact hp
  · intro hp r hr
    rw [e12, Option.mem_def, Option.some.injEq] at hr
    rw [← hr]; exact hp
  · intro hp r hr
    rw [e4, Option.mem_def, Option.some.injEq] at hr
    rw [← hr]; exact hp
  · intro hp r hr
    rw [e5, Option.mem_def, Option.some.injEq] at hr
    rw [← hr]; exact hp
  · intro hp r hr
    rw [e6, Option.mem_def, Option.some.injEq] at hr
    rw [← hr]; exact hp
  · intro hp r hr
    rw [e9, Option.mem_def, Option.some.injEq] at hr
    rw [← hr]; exact hp
  · intro hp r hr
    rw [e11, Option.mem_def, Option.some.injEq] at hr
    rw [← hr]; exact hp

theorem C6_facade_forwards_witness :
    all_ops_defined attached_softc.bus_ops ∧
    ((∃ fn, attached_softc.bus_ops.hif_dump_registers = some fn ∧
       hif_dump_registers sample_env attached_softc =
         some ((sample_env.call_int fn attached_softc).1, (sample_env.call_int fn attached_softc).2,
           [Event.slot_call Slot.hif_dump_registers fn attached_softc []]) ∧
       ((sample_env.call_int fn attached_softc).2.bus_ops = attached_softc.bus_ops →
         ∀ r ∈ hif_dump_registers sample_env attached_softc, r.2.1.bus_ops = attached_softc.bus_ops)) ∧
     (∃ fn, attached_softc.bus_ops.hif_get_config_item = some fn ∧
       hif_get_config_item sample_env attached_softc (-1) 8192 64 =
         some ((sample_env.call_get_config_item fn attached_softc (-1) 8192 64).1,
           (sample_env.call_get_config_item fn attached_softc (-1) 8192 64).2,
           [Event.slot_call Slot.hif_get_config_item fn attached_softc
             [Arg.int (-1), Arg.ptr 8192, Arg.u32 64]]) ∧
       ((sample_env.call_get_config_item fn attached_softc (-1) 8192 64).2.bus_ops = attached_softc.bus_ops →
         ∀ r ∈ hif_get_config_item sample_env attached_softc (-1) 8192 64,
           r.2.1.bus_ops = attached_softc.bus_ops)) ∧
     (∃ fn, attached_softc.bus_ops.hif_bus_suspend = some fn ∧
       hif_bus_suspend sample_env attached_softc =
         some ((sample_env.call_int fn attached_softc).1, (sample_env.call_int fn attached_softc).2,
           [Event.slot_call Slot.hif_bus_suspend fn attached_softc []]) ∧
       ((sample_env.call_int fn attached_softc).2.bus_ops = attached_softc.bus_ops →
         ∀ r ∈ hif_bus_suspend sample_env attached_softc, r.2.1.bus_ops = attached_softc.bus_ops)) ∧
     (∃ fn, attached_softc.bus_ops.hif_bus_resume = some fn ∧
       hif_bus_resume sample_env attached_softc =
         some ((sample_env.call_int fn attached_softc).1, (sample_env.call_int fn attached_softc).2,
           [Event.slot_call Slot.hif_bus_resume fn attached_softc []]) ∧
       ((sample_env.call_int fn attached_softc).2.bus_ops = attached_softc.bus_ops →
         ∀ r ∈ hif_bus_resume sample_env attached_softc, r.2.1.bus_ops = attached_softc.bus_ops)) ∧
     (∃ fn, attached_softc.bus_ops.hif_target_sleep_state_adjust = some fn ∧
       hif_target_sleep_state_adjust sample_env attached_softc true false =
         some ((sample_env.call_sleep_state_adjust fn attached_softc true false).1,
           (sample_env.call_sleep_state_adjust fn attached_softc true false).2,
           [Event.slot_call Slot.hif_target_sleep_state_adjust fn attached_softc
             [Arg.bool true, Arg.bool false]]) ∧
       ((sample_env.call_sleep_state_adjust fn attached_softc true false).2.bus_ops = attached_softc.bus_ops →
         ∀ r ∈ hif_target_sleep_state_adjust sample_env attached_softc true false,
           r.2.1.bus_ops = attached_softc.bus_ops)) ∧
     (∃ fn, attached_softc.bus_ops.hif_enable_bus = some fn ∧
       hif_enable_bus sample_env attached_softc 4096 4112 4128 2 =
         some ((sample_env.call_enable_bus fn attached_softc 4096 4112 4128 2).1,
           (sample_env.call_enable_bus fn attached_softc 4096 4112 4128 2).2,
           [Event.slot_call Slot.hif_enable_bus fn attached_softc
             [Arg.ptr 4096, Arg.ptr 4112, Arg.ptr 4128, Arg.int 2]]) ∧
       ((sample_env.call_enable_bus fn attached_softc 4096 4112 4128 2).2.bus_ops = attached_softc.bus_ops →
         ∀ r ∈ hif_enable_bus sample_env attached_softc 4096 4112 4128 2, r.2.1.bus_ops = attached_softc.bus_ops)) ∧
     (∃ fn, attached_softc.bus_ops.hif_bus_configure = some fn ∧
       hif_bus_configure sample_env attached_softc =
         some ((sample_env.call_int fn attached_softc).1, (sample_env.call_int fn attached_softc).2,
           [Event.slot_call Slot.hif_bus_configure fn attached_softc []]) ∧
       ((sample_env.call_int fn attached_softc).2.bus_ops = attached_softc.bus_ops →
         ∀ r ∈ hif_bus_configure sample_env attached_softc, r.2.1.bus_ops = attached_softc.bus_ops))) ∧
    ((∀ r ∈ hif_dump_registers sample_env attached_softc,
        r.2.1.bus_ops = attached_softc.bus_ops) ∧
     (∀ r ∈ hif_get_config_item sample_env attached_softc (-1) 8192 64,
        r.2.1.bus_ops = attached_softc.bus_ops) ∧
     (∀ r ∈ hif_bus_suspend sample_env attached_softc,
        r.2.1.bus_ops = attached_softc.bus_ops) ∧
     (∀ r ∈ hif_bus_resume sample_env attached_softc,
        r.2.1.bus_ops = attached_softc.bus_ops) ∧
     (∀ r ∈ hif_target_sleep_state_adjust sample_env attached_softc true false,
        r.2.1.bus_ops = attached_softc.bus_ops) ∧
     (∀ r ∈ hif_enable_bus sample_env attached_softc 4096 4112 4128 2,
        r.2.1.bus_ops = attached_softc.bus_ops) ∧
     (∀ r ∈ hif_bus_configure sample_env attached_softc,
        r.2.1.bus_ops = attached_softc.bus_ops)) :=
  ⟨by decide,
    C6_facade_forwards sample_env attached_softc true false 4096 4112 4128 2 (-1) 8192 64
      (by decide),
    by
      obtain ⟨⟨_, _, _, k1⟩, ⟨_, _, _, k2⟩, ⟨_, _, _, k3⟩, ⟨_, _, _, k4⟩, ⟨_, _, _, k5⟩,
        ⟨_, _, _, k6⟩, ⟨_, _, _, k7⟩⟩ :=
        C6_facade_forwards sample_env attached_softc true false 4096 4112 4128 2 (-1) 8192 64
          (by decide)
      exact ⟨k1 rfl, k2 rfl, k3 rfl, k4 rfl, k5 rfl, k6 rfl, k7 rfl⟩⟩

/-- Claim C6 as stated fails: it has the table unmodified after every
entry point, whatever the called function does. On the fully populated
table of `attached_softc`, with the backend of `closing_env` whose suspend
function clears `hif_sc->bus_ops.hif_bus_close`, `hif_bus_suspend` makes
its one call and returns 0, and the table afterwards has a null
`hif_bus_close`: it is not the table before the call. -/
theorem C6_table_unmodified_counterexample :
    all_ops_defined attached_softc.bus_ops ∧
    hif_bus_suspend closing_env attached_softc =
      some (0,
        { attached_softc with
          bus_ops := { attached_softc.bus_ops with hif_bus_close := none } },
        [Event.slot_call Slot.hif_bus_suspend 105 attached_softc []]) ∧
    ¬ (∀ r ∈ hif_bus_suspend closing_env attached_softc,
        r.2.1.bus_ops = attached_softc.bus_ops) := by
  refine ⟨by decide, by decide, ?_⟩
  intro hall
  have hbad := hall _ (show _ ∈ hif_bus_suspend closing_env attached_softc from rfl)
  revert hbad
  decide

/-- Claim C7: for a queue id `Q` with `0 ≤ Q ≤ 16383`, a command id
`c < 16` and a software reference `r < 256`, the 32-bit word
`w = (c << CMD_ID_LSB) | (r << SW_CMD_REF_LSB) | (Q << QID_LSB)` gives
`(w & QID_MASK) >> QID_LSB = Q`, `w & RESERVED_0A_MASK = 0` and
`w & RESERVED_0B_MASK = 0`. -/
theorem C7_qid_roundtrip (Q c r : Nat) (hQ : 0 ≤ Q ∧ Q ≤ 16383) (hc : c < 16) (hr : r < 256) :
    ((shl32 c PAUSE_QID_CMD_0_CMD_ID_LSB ||| shl32 r PAUSE_QID_CMD_0_SW_CMD_REF_LSB
        ||| shl32 Q PAUSE_QID_CMD_0_QID_LSB) &&& PAUSE_QID_CMD_0_QID_MASK)
      >>> PAUSE_QID_CMD_0_QID_LSB = Q ∧
    (shl32 c PAUSE_QID_CMD_0_CMD_ID_LSB ||| shl32 r PAUSE_QID_CMD_0_SW_CMD_REF_LSB
        ||| shl32 Q PAUSE_QID_CMD_0_QID_LSB) &&& PAUSE_QID_CMD_0_RESERVED_0A_MASK = 0 ∧
    (shl32 c PAUSE_QID_CMD_0_CMD_ID_LSB ||| shl32 r PAUSE_QID_CMD_0_SW_CMD_REF_LSB
        ||| shl32 Q PAUSE_QID_CMD_0_QID_LSB) &&& PAUSE_QID_CMD_0_RESERVED_0B_MASK = 0 := by
  have hQ2 : Q < 2 ^ 14 := by omega
  have hc2 : c < 2 ^ 4 := by omega
  have hr2 : r < 2 ^ 8 := by omega
  simp only [PAUSE_QID_CMD_0_CMD_ID_LSB, PAUSE_QID_CMD_0_SW_CMD_REF_LSB, PAUSE_QID_CMD_0_QID_LSB,
    PAUSE_QID_CMD_0_QID_MASK, PAUSE_QID_CMD_0_RESERVED_0A_MASK, PAUSE_QID_CMD_0_RESERVED_0B_MASK]
  rw [shl32_eq c 0 4 hc2 (by decide), shl32_eq r 8 8 hr2 (by decide),
    shl32_eq Q 16 14 hQ2 (by decide)]
  exact ⟨qid_field_roundtrip Q c r hQ2 hc2 hr2, reserved_0a_zero Q c r hc2,
    reserved_0b_zero Q c r hQ2 hc2 hr2⟩

theorem C7_qid_roundtrip_witness :
    (0 ≤ 16383 ∧ 16383 ≤ 16383) ∧ 3 < 16 ∧ 255 < 256 ∧
    (((shl32 3 PAUSE_QID_CMD_0_CMD_ID_LSB ||| shl32 255 PAUSE_QID_CMD_0_SW_CMD_REF_LSB
        ||| shl32 16383 PAUSE_QID_CMD_0_QID_LSB) &&& PAUSE_QID_CMD_0_QID_MASK)
      >>> PAUSE_QID_CMD_0_QID_LSB = 16383 ∧
    (shl32 3 PAUSE_QID_CMD_0_CMD_ID_LSB ||| shl32 255 PAUSE_QID_CMD_0_SW_CMD_REF_LSB
        ||| shl32 16383 PAUSE_QID_CMD_0_QID_LSB) &&& PAUSE_QID_CMD_0_RESERVED_0A_MASK = 0 ∧
    (shl32 3 PAUSE_QID_CMD_0_CMD_ID_LSB ||| shl32 255 PAUSE_QID_CMD_0_SW_CMD_REF_LSB
        ||| shl32 16383 PAUSE_QID_CMD_0_QID_LSB) &&& PAUSE_QID_CMD_0_RESERVED_0B_MASK = 0) :=
  ⟨by decide, by decide, by decide,
    C7_qid_roundtrip 16383 3 255 (by decide) (by decide) (by decide)⟩

end Multibus
